import Mathlib

/-!
Verification of the HighResTimer interop marshalling layer of
nanoFramework.Hardware.Esp32.

The file embeds, as Lean functions, the six generated dispatcher shims of
`Stubs/nanoFramework_Hardware_Esp32_nanoFramework_Hardware_Esp32_HighResTimer_mshl.cpp`
(`NativeEspTimerCreate___I4`, `NativeEspTimerDispose___VOID`,
`NativeStop___VOID`, `NativeStartOneShot___VOID__U8`,
`NativeStartPeriodic___VOID__U8`, `NativeGetCurrent___STATIC__U8`), with the
nanoCLR control-flow macros (`NANOCLR_HEADER`, `FAULT_ON_NULL`,
`NANOCLR_CHECK_HRESULT`, `NANOCLR_NOCLEANUP`) expanded to their standard
meaning: `FAULT_ON_NULL(p)` sets `hr = CLR_E_NULL_REFERENCE` and jumps to
cleanup when `p` is null; `NANOCLR_CHECK_HRESULT(e)` assigns `hr = e` and
jumps to cleanup when `FAILED(hr)`; `NANOCLR_NOCLEANUP()` expands to
`hr = S_OK; nanoCLR_Cleanup: return hr;`, so the fall-through (success) path
returns `S_OK` while a jump lands on the label and returns the failing `hr`.

The shims are parametric in the Timer Resource Driver (`HighResTimer::*`),
whose bodies are elsewhere in the repository; a driver modelled from the
spec (association table plus timer state machine) instantiates them where a
claim is about driver behaviour.
-/

/-- HRESULT success value, as in the nanoCLR headers. -/
def S_OK : Int := 0

/-- HRESULT failure test: on a 32-bit signed HRESULT the severity bit makes
every failure code negative, so `FAILED(hr)` is `hr < 0`. -/
def FAILED (hr : Int) : Bool := hr < 0

/-- Modelled from the spec: the nanoCLR error code raised by `FAULT_ON_NULL`
when the managed object reference is null (spec taxonomy: NullReference).
The numeric encoding lives in the external nanoCLR headers; here it is a
fixed, distinct negative HRESULT. -/
def CLR_E_NULL_REFERENCE : Int := -3

/-- Modelled from the spec: the error code for an operation on a managed
reference with no associated native resource (spec taxonomy: NotFound). -/
def CLR_E_NOT_FOUND : Int := -5

/-- Modelled from the spec: the error code for a failing underlying time
source (spec taxonomy: PlatformFault). -/
def CLR_E_PLATFORM_FAULT : Int := -6

/-- Modelled from the spec: the error code when `Create` finds the reference
already associated (spec: `associate` fails on a duplicate reference). -/
def CLR_E_INVALID_STATE : Int := -7

/-- Modelled from the spec: the error code when no hardware timer slot
remains at `Create` time (spec taxonomy: ResourceExhausted). -/
def CLR_E_RESOURCE_EXHAUSTED : Int := -8

/-- A typed value written into the stack frame result slot by the
`SetResult_*` marshalling primitives. -/
inductive ResultVal : Type
  | i32 (v : Int) : ResultVal
  | u64 (v : Nat) : ResultVal
deriving DecidableEq

/-- The managed invocation context (`CLR_RT_StackFrame`), as the shims
observe it: the managed object pointer the frame resolves (`none` models a
null `CLR_RT_HeapBlock*`), the outcome of decoding argument slot `n` as an
unsigned 64-bit value (an HRESULT and, on success, the decoded value), and
the result slot. -/
structure StackFrame : Type where
  mngObj : Option Nat
  argU64 : Nat → Int × Nat
  result : Option ResultVal

/-- `Interop_Marshal_RetrieveManagedObject( stack )`: yields the frame's
managed object pointer, possibly null. -/
def Interop_Marshal_RetrieveManagedObject (stack : StackFrame) : Option Nat :=
  stack.mngObj

/-- `Interop_Marshal_UINT64( stack, n, param )`: returns an HRESULT and, on
success, stores the decoded unsigned 64-bit value in `param`. The frame
records the outcome per argument position. -/
def Interop_Marshal_UINT64 (stack : StackFrame) (pos : Nat) : Int × Nat :=
  stack.argU64 pos

/-- `SetResult_INT32( stack, v )`: writes a signed 32-bit value into the
frame's result slot. -/
def SetResult_INT32 (stack : StackFrame) (v : Int) : StackFrame :=
  { stack with result := some (ResultVal.i32 v) }

/-- `SetResult_UINT64( stack, v )`: writes an unsigned 64-bit value into the
frame's result slot. -/
def SetResult_UINT64 (stack : StackFrame) (v : Nat) : StackFrame :=
  { stack with result := some (ResultVal.u64 v) }

/-- The Timer Resource Driver interface the shims call
(`HighResTimer::NativeEspTimerCreate` and friends). Each operation threads
a driver state of type `σ`, receives the current `hr` by reference and
returns the updated state, any native return value, and the updated `hr`. -/
structure Driver (σ : Type) : Type where
  create : σ → Nat → Int → σ × Int × Int
  dispose : σ → Nat → Int → σ × Int
  stop : σ → Nat → Int → σ × Int
  startOneShot : σ → Nat → Nat → Int → σ × Int
  startPeriodic : σ → Nat → Nat → Int → σ × Int
  getCurrent : σ → Int → σ × Nat × Int

/-- Observable outcome of one shim call: driver state after the call, the
HRESULT returned to the managed caller, the stack frame after the call, and
whether the Timer Resource Driver operation was invoked at all. -/
structure ShimOut (σ : Type) : Type where
  st : σ
  hr : Int
  frame : StackFrame
  invoked : Bool

/-- Shim `NativeEspTimerCreate___I4` (mshl.cpp lines 16-30): `hr = S_OK`;
retrieve managed object, `FAULT_ON_NULL`; call
`HighResTimer::NativeEspTimerCreate(pMngObj, hr)`;
`NANOCLR_CHECK_HRESULT(hr)`; `SetResult_INT32(stack, retVal)`;
`NANOCLR_NOCLEANUP()`. -/
def NativeEspTimerCreate___I4 {σ : Type} (d : Driver σ) (st : σ)
    (stack : StackFrame) : ShimOut σ :=
  match Interop_Marshal_RetrieveManagedObject stack with
  | none => ⟨st, CLR_E_NULL_REFERENCE, stack, false⟩
  | some pMngObj =>
    let r := d.create st pMngObj S_OK
    if FAILED r.2.2 then ⟨r.1, r.2.2, stack, true⟩
    else ⟨r.1, S_OK, SetResult_INT32 stack r.2.1, true⟩

/-- Shim `NativeEspTimerDispose___VOID` (mshl.cpp lines 32-44). -/
def NativeEspTimerDispose___VOID {σ : Type} (d : Driver σ) (st : σ)
    (stack : StackFrame) : ShimOut σ :=
  match Interop_Marshal_RetrieveManagedObject stack with
  | none => ⟨st, CLR_E_NULL_REFERENCE, stack, false⟩
  | some pMngObj =>
    let r := d.dispose st pMngObj S_OK
    if FAILED r.2 then ⟨r.1, r.2, stack, true⟩
    else ⟨r.1, S_OK, stack, true⟩

/-- Shim `NativeStop___VOID` (mshl.cpp lines 46-58). -/
def NativeStop___VOID {σ : Type} (d : Driver σ) (st : σ)
    (stack : StackFrame) : ShimOut σ :=
  match Interop_Marshal_RetrieveManagedObject stack with
  | none => ⟨st, CLR_E_NULL_REFERENCE, stack, false⟩
  | some pMngObj =>
    let r := d.stop st pMngObj S_OK
    if FAILED r.2 then ⟨r.1, r.2, stack, true⟩
    else ⟨r.1, S_OK, stack, true⟩

/-- Shim `NativeStartOneShot___VOID__U8` (mshl.cpp lines 60-75): after the
null check, `NANOCLR_CHECK_HRESULT( Interop_Marshal_UINT64(stack, 1, param0) )`
assigns the marshaller's HRESULT to `hr` and leaves on failure; otherwise
the driver is called with `param0` and the current `hr`. -/
def NativeStartOneShot___VOID__U8 {σ : Type} (d : Driver σ) (st : σ)
    (stack : StackFrame) : ShimOut σ :=
  match Interop_Marshal_RetrieveManagedObject stack with
  | none => ⟨st, CLR_E_NULL_REFERENCE, stack, false⟩
  | some pMngObj =>
    let m := Interop_Marshal_UINT64 stack 1
    if FAILED m.1 then ⟨st, m.1, stack, false⟩
    else
      let r := d.startOneShot st pMngObj m.2 m.1
      if FAILED r.2 then ⟨r.1, r.2, stack, true⟩
      else ⟨r.1, S_OK, stack, true⟩

/-- Shim `NativeStartPeriodic___VOID__U8` (mshl.cpp lines 77-92). -/
def NativeStartPeriodic___VOID__U8 {σ : Type} (d : Driver σ) (st : σ)
    (stack : StackFrame) : ShimOut σ :=
  match Interop_Marshal_RetrieveManagedObject stack with
  | none => ⟨st, CLR_E_NULL_REFERENCE, stack, false⟩
  | some pMngObj =>
    let m := Interop_Marshal_UINT64 stack 1
    if FAILED m.1 then ⟨st, m.1, stack, false⟩
    else
      let r := d.startPeriodic st pMngObj m.2 m.1
      if FAILED r.2 then ⟨r.1, r.2, stack, true⟩
      else ⟨r.1, S_OK, stack, true⟩

/-- Shim `NativeGetCurrent___STATIC__U8` (mshl.cpp lines 94-104): static,
no managed object retrieval; `HighResTimer::NativeGetCurrent(hr)` then
`SetResult_UINT64` on success. -/
def NativeGetCurrent___STATIC__U8 {σ : Type} (d : Driver σ) (st : σ)
    (stack : StackFrame) : ShimOut σ :=
  let r := d.getCurrent st S_OK
  if FAILED r.2.2 then ⟨r.1, r.2.2, stack, true⟩
  else ⟨r.1, S_OK, SetResult_UINT64 stack r.2.1, true⟩

/-- Timer mode of a native timer handle (spec data model). -/
inductive TimerMode : Type
  | idle : TimerMode
  | armedOneShot : TimerMode
  | armedPeriodic : TimerMode
deriving DecidableEq

/-- Association entry payload: the native handle's mode and configured
interval in ticks (spec data model). -/
structure TimerEntry : Type where
  mode : TimerMode
  interval : Nat
deriving DecidableEq

/-- Modelled from the spec: the Timer Resource Driver state that the
`HighResTimer` implementation files (not under src/) maintain: the Native
Object Association Table keyed by managed reference, the remaining hardware
timer slots, a count of hardware resource releases performed (to observe
double-free), the free-running counter, and whether the underlying time
source is available. -/
structure TimerState : Type where
  assoc : List (Nat × TimerEntry)
  slotsFree : Nat
  hwReleases : Nat
  now : Nat
  timeSourceOk : Bool

/-- Association Table `lookup(ref)`: the entry for `p`, if any. -/
def lookupRef : List (Nat × TimerEntry) → Nat → Option TimerEntry
  | [], _ => none
  | (q, e) :: t, p => if q = p then some e else lookupRef t p

/-- Association Table `remove(ref)`: drops every entry for `p`. -/
def removeRef : List (Nat × TimerEntry) → Nat → List (Nat × TimerEntry)
  | [], _ => []
  | (q, e) :: t, p => if q = p then removeRef t p else (q, e) :: removeRef t p

/-- Replaces the entry for `p` (first occurrence) with `e`. -/
def updateRef : List (Nat × TimerEntry) → Nat → TimerEntry → List (Nat × TimerEntry)
  | [], _, _ => []
  | (q, e) :: t, p, e2 => if q = p then (p, e2) :: t else (q, e) :: updateRef t p e2

namespace HighResTimer

/-- Modelled from the spec: `HighResTimer::NativeEspTimerCreate` (driver body
not under src/). Allocation fails when the reference is already associated
(`associate` rejects duplicates) or no hardware timer slot remains
(ResourceExhausted); otherwise a new handle in state `Idle` is associated
with the reference and its id is returned. -/
def NativeEspTimerCreate (s : TimerState) (p : Nat) (hr : Int) :
    TimerState × Int × Int :=
  match lookupRef s.assoc p with
  | some _ => (s, 0, CLR_E_INVALID_STATE)
  | none =>
    if s.slotsFree = 0 then (s, 0, CLR_E_RESOURCE_EXHAUSTED)
    else ({ s with assoc := (p, ⟨TimerMode.idle, 0⟩) :: s.assoc, slotsFree := s.slotsFree - 1 }, Int.ofNat p, hr)

/-- Modelled from the spec: `HighResTimer::NativeEspTimerDispose` (driver
body not under src/). When an association exists the timer is implicitly
stopped, the hardware resource is released (once), and the entry removed;
`remove` on an absent reference is idempotent success, so disposing an
already-disposed reference succeeds without touching the hardware. -/
def NativeEspTimerDispose (s : TimerState) (p : Nat) (hr : Int) :
    TimerState × Int :=
  match lookupRef s.assoc p with
  | some _ => ({ s with assoc := removeRef s.assoc p, slotsFree := s.slotsFree + 1, hwReleases := s.hwReleases + 1 }, hr)
  | none => (s, hr)

/-- Modelled from the spec: `HighResTimer::NativeStop` (driver body not
under src/). Fails with NotFound when the reference has no association;
otherwise cancels any armed schedule and returns to `Idle`, a no-op success
when already `Idle`. -/
def NativeStop (s : TimerState) (p : Nat) (hr : Int) : TimerState × Int :=
  match lookupRef s.assoc p with
  | none => (s, CLR_E_NOT_FOUND)
  | some e =>
    ({ s with assoc := updateRef s.assoc p ⟨TimerMode.idle, e.interval⟩ }, hr)

/-- Modelled from the spec: `HighResTimer::NativeStartOneShot` (driver body
not under src/). Fails with NotFound when the reference has no association;
otherwise atomically replaces any prior schedule, arming one-shot with the
given interval. -/
def NativeStartOneShot (s : TimerState) (p : Nat) (t : Nat) (hr : Int) :
    TimerState × Int :=
  match lookupRef s.assoc p with
  | none => (s, CLR_E_NOT_FOUND)
  | some _ =>
    ({ s with assoc := updateRef s.assoc p ⟨TimerMode.armedOneShot, t⟩ }, hr)

/-- Modelled from the spec: `HighResTimer::NativeStartPeriodic` (driver body
not under src/), as one-shot but arming periodic. -/
def NativeStartPeriodic (s : TimerState) (p : Nat) (t : Nat) (hr : Int) :
    TimerState × Int :=
  match lookupRef s.assoc p with
  | none => (s, CLR_E_NOT_FOUND)
  | some _ =>
    ({ s with assoc := updateRef s.assoc p ⟨TimerMode.armedPeriodic, t⟩ }, hr)

/-- Modelled from the spec: `HighResTimer::NativeGetCurrent` (driver body
not under src/). A handle-independent read of the free-running 64-bit
counter; succeeds unless the underlying time source is unavailable, in
which case it reports a platform fault. -/
def NativeGetCurrent (s : TimerState) (hr : Int) : TimerState × Nat × Int :=
  if s.timeSourceOk then (s, s.now % 2 ^ 64, hr)
  else (s, 0, CLR_E_PLATFORM_FAULT)

end HighResTimer

/-- The spec-modelled Timer Resource Driver packaged for the shims. -/
def HighResTimerDriver : Driver TimerState where
  create := HighResTimer.NativeEspTimerCreate
  dispose := HighResTimer.NativeEspTimerDispose
  stop := HighResTimer.NativeStop
  startOneShot := HighResTimer.NativeStartOneShot
  startPeriodic := HighResTimer.NativeStartPeriodic
  getCurrent := HighResTimer.NativeGetCurrent

/-- Follows the spec's words (dispatcher contract and propagation policy):
the status returned to the managed caller is that of the first failing
step — the null-reference error when the reference is absent, otherwise the
first failing argument-decode status, otherwise the driver's status when
failing, otherwise success. -/
def firstFailStatus (ref : Option Nat) (decodes : List Int)
    (drv : Nat → Int) : Int :=
  match ref with
  | none => CLR_E_NULL_REFERENCE
  | some p =>
    match decodes.find? (fun h => FAILED h) with
    | some h => h
    | none => if FAILED (drv p) then drv p else S_OK

/-- A driver whose operations return without writing `hr`: each operation
leaves the incoming status untouched (and performs no state change). -/
def inertDriver : Driver Unit where
  create := fun st _ hr => (st, 0, hr)
  dispose := fun st _ hr => (st, hr)
  stop := fun st _ hr => (st, hr)
  startOneShot := fun st _ _ hr => (st, hr)
  startPeriodic := fun st _ _ hr => (st, hr)
  getCurrent := fun st hr => (st, 0, hr)

/-- Removing a reference leaves no entry for it. -/
theorem lookupRef_removeRef (l : List (Nat × TimerEntry)) (p : Nat) :
    lookupRef (removeRef l p) p = none := by
  induction l with
  | nil => rfl
  | cons h t ih =>
    obtain ⟨q, e⟩ := h
    by_cases hq : q = p
    · simp [removeRef, hq, ih]
    · simp [removeRef, lookupRef, hq, ih]

/-- Claim C1: in `NativeStartOneShot___VOID__U8` and
`NativeStartPeriodic___VOID__U8`, when decoding the uint64 interval argument
fails the dispatcher returns the marshaller's failure HRESULT, does not
invoke the Timer Resource Driver operation, and leaves driver state and
stack frame unchanged. -/
theorem spec_C1 {σ : Type} (d : Driver σ) (st : σ) (stack : StackFrame)
    (p : Nat) (h : stack.mngObj = some p)
    (hm : FAILED (stack.argU64 1).1 = true) :
    NativeStartOneShot___VOID__U8 d st stack =
      ⟨st, (stack.argU64 1).1, stack, false⟩ ∧
    NativeStartPeriodic___VOID__U8 d st stack =
      ⟨st, (stack.argU64 1).1, stack, false⟩ := by
  constructor <;>
    simp [NativeStartOneShot___VOID__U8, NativeStartPeriodic___VOID__U8,
      Interop_Marshal_RetrieveManagedObject, Interop_Marshal_UINT64, h, hm]

/-- Witness for C1 at a concrete frame whose interval slot decodes to the
failure HRESULT -9. -/
theorem spec_C1_witness :
    (⟨some 0, fun _ => (-9, 5), none⟩ : StackFrame).mngObj = some 0 ∧
    FAILED (((⟨some 0, fun _ => (-9, 5), none⟩ : StackFrame).argU64 1).1) = true ∧
    (NativeStartOneShot___VOID__U8 HighResTimerDriver
        (⟨[], 1, 0, 0, true⟩ : TimerState) ⟨some 0, fun _ => (-9, 5), none⟩ =
      ⟨⟨[], 1, 0, 0, true⟩, -9, ⟨some 0, fun _ => (-9, 5), none⟩, false⟩ ∧
     NativeStartPeriodic___VOID__U8 HighResTimerDriver
        (⟨[], 1, 0, 0, true⟩ : TimerState) ⟨some 0, fun _ => (-9, 5), none⟩ =
      ⟨⟨[], 1, 0, 0, true⟩, -9, ⟨some 0, fun _ => (-9, 5), none⟩, false⟩) :=
  ⟨rfl, by decide,
   spec_C1 HighResTimerDriver ⟨[], 1, 0, 0, true⟩
     ⟨some 0, fun _ => (-9, 5), none⟩ 0 rfl (by decide)⟩

/-- Claim C2: for every instance operation, a null managed object reference
makes the dispatcher return the null-reference failure immediately: driver
state and frame are untouched, the driver is not invoked, and (the equation
holding for every frame with a null reference) no argument slot is
consulted. -/
theorem spec_C2 {σ : Type} (d : Driver σ) (st : σ) (stack : StackFrame)
    (h : stack.mngObj = none) :
    NativeEspTimerCreate___I4 d st stack =
      ⟨st, CLR_E_NULL_REFERENCE, stack, false⟩ ∧
    NativeEspTimerDispose___VOID d st stack =
      ⟨st, CLR_E_NULL_REFERENCE, stack, false⟩ ∧
    NativeStop___VOID d st stack =
      ⟨st, CLR_E_NULL_REFERENCE, stack, false⟩ ∧
    NativeStartOneShot___VOID__U8 d st stack =
      ⟨st, CLR_E_NULL_REFERENCE, stack, false⟩ ∧
    NativeStartPeriodic___VOID__U8 d st stack =
      ⟨st, CLR_E_NULL_REFERENCE, stack, false⟩ := by
  refine ⟨?_, ?_, ?_, ?_, ?_⟩ <;>
    simp [NativeEspTimerCreate___I4, NativeEspTimerDispose___VOID,
      NativeStop___VOID, NativeStartOneShot___VOID__U8,
      NativeStartPeriodic___VOID__U8,
      Interop_Marshal_RetrieveManagedObject, h]

/-- Witness for C2 at a concrete frame with a null managed object pointer. -/
theorem spec_C2_witness :
    (⟨none, fun _ => (0, 5), none⟩ : StackFrame).mngObj = none ∧
    (NativeEspTimerCreate___I4 HighResTimerDriver
        (⟨[], 1, 0, 0, true⟩ : TimerState) ⟨none, fun _ => (0, 5), none⟩ =
      ⟨⟨[], 1, 0, 0, true⟩, CLR_E_NULL_REFERENCE, ⟨none, fun _ => (0, 5), none⟩, false⟩ ∧
     NativeEspTimerDispose___VOID HighResTimerDriver
        (⟨[], 1, 0, 0, true⟩ : TimerState) ⟨none, fun _ => (0, 5), none⟩ =
      ⟨⟨[], 1, 0, 0, true⟩, CLR_E_NULL_REFERENCE, ⟨none, fun _ => (0, 5), none⟩, false⟩ ∧
     NativeStop___VOID HighResTimerDriver
        (⟨[], 1, 0, 0, true⟩ : TimerState) ⟨none, fun _ => (0, 5), none⟩ =
      ⟨⟨[], 1, 0, 0, true⟩, CLR_E_NULL_REFERENCE, ⟨none, fun _ => (0, 5), none⟩, false⟩ ∧
     NativeStartOneShot___VOID__U8 HighResTimerDriver
        (⟨[], 1, 0, 0, true⟩ : TimerState) ⟨none, fun _ => (0, 5), none⟩ =
      ⟨⟨[], 1, 0, 0, true⟩, CLR_E_NULL_REFERENCE, ⟨none, fun _ => (0, 5), none⟩, false⟩ ∧
     NativeStartPeriodic___VOID__U8 HighResTimerDriver
        (⟨[], 1, 0, 0, true⟩ : TimerState) ⟨none, fun _ => (0, 5), none⟩ =
      ⟨⟨[], 1, 0, 0, true⟩, CLR_E_NULL_REFERENCE, ⟨none, fun _ => (0, 5), none⟩, false⟩) :=
  ⟨rfl, spec_C2 HighResTimerDriver ⟨[], 1, 0, 0, true⟩
     ⟨none, fun _ => (0, 5), none⟩ rfl⟩

/-- Claim C3: in the two value-returning shims the result slot is written
exactly when the invoked native operation succeeds: on a failing HRESULT
the dispatcher returns it with the frame untouched, on success it returns
`S_OK` with the result slot set to the native return value. -/
theorem spec_C3 {σ : Type} (d : Driver σ) (st : σ) (stack : StackFrame)
    (p : Nat) (h : stack.mngObj = some p) :
    NativeEspTimerCreate___I4 d st stack =
      (if FAILED (d.create st p S_OK).2.2 then
        ⟨(d.create st p S_OK).1, (d.create st p S_OK).2.2, stack, true⟩
       else
        ⟨(d.create st p S_OK).1, S_OK,
          SetResult_INT32 stack (d.create st p S_OK).2.1, true⟩) ∧
    NativeGetCurrent___STATIC__U8 d st stack =
      (if FAILED (d.getCurrent st S_OK).2.2 then
        ⟨(d.getCurrent st S_OK).1, (d.getCurrent st S_OK).2.2, stack, true⟩
       else
        ⟨(d.getCurrent st S_OK).1, S_OK,
          SetResult_UINT64 stack (d.getCurrent st S_OK).2.1, true⟩) := by
  constructor <;>
    simp [NativeEspTimerCreate___I4, NativeGetCurrent___STATIC__U8,
      Interop_Marshal_RetrieveManagedObject, h]

/-- Witness for C3: with the spec-modelled driver on a fresh state, create
succeeds and writes the handle id, and get-current succeeds and writes the
counter. -/
theorem spec_C3_witness :
    (⟨some 2, fun _ => (0, 5), none⟩ : StackFrame).mngObj = some 2 ∧
    (NativeEspTimerCreate___I4 HighResTimerDriver
        (⟨[], 1, 0, 7, true⟩ : TimerState) ⟨some 2, fun _ => (0, 5), none⟩ =
      (if FAILED (HighResTimerDriver.create ⟨[], 1, 0, 7, true⟩ 2 S_OK).2.2 then
        ⟨(HighResTimerDriver.create ⟨[], 1, 0, 7, true⟩ 2 S_OK).1,
          (HighResTimerDriver.create ⟨[], 1, 0, 7, true⟩ 2 S_OK).2.2,
          ⟨some 2, fun _ => (0, 5), none⟩, true⟩
       else
        ⟨(HighResTimerDriver.create ⟨[], 1, 0, 7, true⟩ 2 S_OK).1, S_OK,
          SetResult_INT32 ⟨some 2, fun _ => (0, 5), none⟩
            (HighResTimerDriver.create ⟨[], 1, 0, 7, true⟩ 2 S_OK).2.1, true⟩) ∧
     NativeGetCurrent___STATIC__U8 HighResTimerDriver
        (⟨[], 1, 0, 7, true⟩ : TimerState) ⟨some 2, fun _ => (0, 5), none⟩ =
      (if FAILED (HighResTimerDriver.getCurrent ⟨[], 1, 0, 7, true⟩ S_OK).2.2 then
        ⟨(HighResTimerDriver.getCurrent ⟨[], 1, 0, 7, true⟩ S_OK).1,
          (HighResTimerDriver.getCurrent ⟨[], 1, 0, 7, true⟩ S_OK).2.2,
          ⟨some 2, fun _ => (0, 5), none⟩, true⟩
       else
        ⟨(HighResTimerDriver.getCurrent ⟨[], 1, 0, 7, true⟩ S_OK).1, S_OK,
          SetResult_UINT64 ⟨some 2, fun _ => (0, 5), none⟩
            (HighResTimerDriver.getCurrent ⟨[], 1, 0, 7, true⟩ S_OK).2.1, true⟩)) :=
  ⟨rfl, spec_C3 HighResTimerDriver ⟨[], 1, 0, 7, true⟩
     ⟨some 2, fun _ => (0, 5), none⟩ 2 rfl⟩

/-- Claim C4: every shim returns to the managed caller exactly the HRESULT
of the first failing step (null check, argument marshalling, native driver
call), as described by `firstFailStatus`; the static get-current shim has
no null check or arguments and returns the driver's failure or success. -/
theorem spec_C4 {σ : Type} (d : Driver σ) (st : σ) (stack : StackFrame) :
    (NativeEspTimerCreate___I4 d st stack).hr =
      firstFailStatus stack.mngObj [] (fun p => (d.create st p S_OK).2.2) ∧
    (NativeEspTimerDispose___VOID d st stack).hr =
      firstFailStatus stack.mngObj [] (fun p => (d.dispose st p S_OK).2) ∧
    (NativeStop___VOID d st stack).hr =
      firstFailStatus stack.mngObj [] (fun p => (d.stop st p S_OK).2) ∧
    (NativeStartOneShot___VOID__U8 d st stack).hr =
      firstFailStatus stack.mngObj [(stack.argU64 1).1]
        (fun p => (d.startOneShot st p (stack.argU64 1).2 (stack.argU64 1).1).2) ∧
    (NativeStartPeriodic___VOID__U8 d st stack).hr =
      firstFailStatus stack.mngObj [(stack.argU64 1).1]
        (fun p => (d.startPeriodic st p (stack.argU64 1).2 (stack.argU64 1).1).2) ∧
    (NativeGetCurrent___STATIC__U8 d st stack).hr =
      (if FAILED (d.getCurrent st S_OK).2.2 then (d.getCurrent st S_OK).2.2
       else S_OK) := by
  refine ⟨?_, ?_, ?_, ?_, ?_, ?_⟩ <;>
    cases hm : stack.mngObj <;>
      simp [NativeEspTimerCreate___I4, NativeEspTimerDispose___VOID,
        NativeStop___VOID, NativeStartOneShot___VOID__U8,
        NativeStartPeriodic___VOID__U8, NativeGetCurrent___STATIC__U8,
        Interop_Marshal_RetrieveManagedObject, Interop_Marshal_UINT64,
        firstFailStatus, List.find?, hm] <;>
      (try (split <;> simp_all)) <;> (try (split <;> simp_all))

/-- Claim C9: in both start shims the null-reference check precedes the
interval decode: when the reference is null and the interval slot is also
malformed (its decode HRESULT failing and distinct from the null-reference
code), the returned failure is the null-reference error and not the decode
error, and the driver is not invoked. -/
theorem spec_C9 {σ : Type} (d : Driver σ) (st : σ) (stack : StackFrame)
    (h : stack.mngObj = none) (_hm : FAILED (stack.argU64 1).1 = true)
    (hne : (stack.argU64 1).1 ≠ CLR_E_NULL_REFERENCE) :
    (NativeStartOneShot___VOID__U8 d st stack).hr = CLR_E_NULL_REFERENCE ∧
    (NativeStartOneShot___VOID__U8 d st stack).hr ≠ (stack.argU64 1).1 ∧
    (NativeStartOneShot___VOID__U8 d st stack).invoked = false ∧
    (NativeStartPeriodic___VOID__U8 d st stack).hr = CLR_E_NULL_REFERENCE ∧
    (NativeStartPeriodic___VOID__U8 d st stack).hr ≠ (stack.argU64 1).1 ∧
    (NativeStartPeriodic___VOID__U8 d st stack).invoked = false := by
  refine ⟨?_, ?_, ?_, ?_, ?_, ?_⟩ <;>
    simp [NativeStartOneShot___VOID__U8, NativeStartPeriodic___VOID__U8,
      Interop_Marshal_RetrieveManagedObject, h] <;>
    exact fun hc => hne hc.symm

/-- Witness for C9 at a frame with a null reference and an interval slot
decoding to the failure HRESULT -9. -/
theorem spec_C9_witness :
    (⟨none, fun _ => (-9, 5), none⟩ : StackFrame).mngObj = none ∧
    FAILED (((⟨none, fun _ => (-9, 5), none⟩ : StackFrame).argU64 1).1) = true ∧
    ((⟨none, fun _ => (-9, 5), none⟩ : StackFrame).argU64 1).1 ≠ CLR_E_NULL_REFERENCE ∧
    ((NativeStartOneShot___VOID__U8 HighResTimerDriver
        (⟨[], 1, 0, 0, true⟩ : TimerState) ⟨none, fun _ => (-9, 5), none⟩).hr =
       CLR_E_NULL_REFERENCE ∧
     (NativeStartOneShot___VOID__U8 HighResTimerDriver
        (⟨[], 1, 0, 0, true⟩ : TimerState) ⟨none, fun _ => (-9, 5), none⟩).hr ≠
       ((⟨none, fun _ => (-9, 5), none⟩ : StackFrame).argU64 1).1 ∧
     (NativeStartOneShot___VOID__U8 HighResTimerDriver
        (⟨[], 1, 0, 0, true⟩ : TimerState) ⟨none, fun _ => (-9, 5), none⟩).invoked =
       false ∧
     (NativeStartPeriodic___VOID__U8 HighResTimerDriver
        (⟨[], 1, 0, 0, true⟩ : TimerState) ⟨none, fun _ => (-9, 5), none⟩).hr =
       CLR_E_NULL_REFERENCE ∧
     (NativeStartPeriodic___VOID__U8 HighResTimerDriver
        (⟨[], 1, 0, 0, true⟩ : TimerState) ⟨none, fun _ => (-9, 5), none⟩).hr ≠
       ((⟨none, fun _ => (-9, 5), none⟩ : StackFrame).argU64 1).1 ∧
     (NativeStartPeriodic___VOID__U8 HighResTimerDriver
        (⟨[], 1, 0, 0, true⟩ : TimerState) ⟨none, fun _ => (-9, 5), none⟩).invoked =
       false) :=
  ⟨rfl, by decide, by decide,
   spec_C9 HighResTimerDriver ⟨[], 1, 0, 0, true⟩
     ⟨none, fun _ => (-9, 5), none⟩ rfl (by decide) (by decide)⟩

/-- Claim C10: the four void-returning shims never touch the stack frame
(in particular its result slot), on success and on every failure path, for
every driver. -/
theorem spec_C10 {σ : Type} (d : Driver σ) (st : σ) (stack : StackFrame) :
    (NativeEspTimerDispose___VOID d st stack).frame = stack ∧
    (NativeStop___VOID d st stack).frame = stack ∧
    (NativeStartOneShot___VOID__U8 d st stack).frame = stack ∧
    (NativeStartPeriodic___VOID__U8 d st stack).frame = stack := by
  refine ⟨?_, ?_, ?_, ?_⟩ <;>
    cases hm : stack.mngObj <;>
      simp [NativeEspTimerDispose___VOID, NativeStop___VOID,
        NativeStartOneShot___VOID__U8, NativeStartPeriodic___VOID__U8,
        Interop_Marshal_RetrieveManagedObject, Interop_Marshal_UINT64, hm] <;>
      split <;> (try rfl) <;> split <;> rfl

/-- Claim C5: `NativeGetCurrent` is static and handle-independent: with the
spec-modelled driver and an available time source it returns success and
writes the 64-bit counter into the result slot; its outcome is the same for
any managed object pointer and argument slots of the frame, and for any
contents of the association table. -/
theorem spec_C5 (s : TimerState) (stack : StackFrame) (mo : Option Nat)
    (f : Nat → Int × Nat) (a : List (Nat × TimerEntry))
    (h : s.timeSourceOk = true) :
    (NativeGetCurrent___STATIC__U8 HighResTimerDriver s stack).hr = S_OK ∧
    (NativeGetCurrent___STATIC__U8 HighResTimerDriver s stack).st = s ∧
    (NativeGetCurrent___STATIC__U8 HighResTimerDriver s stack).frame =
      SetResult_UINT64 stack (s.now % 2 ^ 64) ∧
    (NativeGetCurrent___STATIC__U8 HighResTimerDriver s
        ⟨mo, f, stack.result⟩).hr = S_OK ∧
    (NativeGetCurrent___STATIC__U8 HighResTimerDriver s
        ⟨mo, f, stack.result⟩).frame.result =
      some (ResultVal.u64 (s.now % 2 ^ 64)) ∧
    (NativeGetCurrent___STATIC__U8 HighResTimerDriver
        { s with assoc := a } stack).hr = S_OK ∧
    (NativeGetCurrent___STATIC__U8 HighResTimerDriver
        { s with assoc := a } stack).frame =
      SetResult_UINT64 stack (s.now % 2 ^ 64) := by
  refine ⟨?_, ?_, ?_, ?_, ?_, ?_, ?_⟩ <;>
    simp [NativeGetCurrent___STATIC__U8, HighResTimerDriver,
      HighResTimer.NativeGetCurrent, SetResult_UINT64, FAILED, S_OK, h]

/-- Witness for C5 at a concrete driver state with counter value 42. -/
theorem spec_C5_witness :
    (⟨[(0, ⟨TimerMode.idle, 0⟩)], 1, 0, 42, true⟩ : TimerState).timeSourceOk = true ∧
    ((NativeGetCurrent___STATIC__U8 HighResTimerDriver
        ⟨[(0, ⟨TimerMode.idle, 0⟩)], 1, 0, 42, true⟩
        ⟨some 0, fun _ => (0, 5), none⟩).hr = S_OK ∧
     (NativeGetCurrent___STATIC__U8 HighResTimerDriver
        ⟨[(0, ⟨TimerMode.idle, 0⟩)], 1, 0, 42, true⟩
        ⟨some 0, fun _ => (0, 5), none⟩).st =
       ⟨[(0, ⟨TimerMode.idle, 0⟩)], 1, 0, 42, true⟩ ∧
     (NativeGetCurrent___STATIC__U8 HighResTimerDriver
        ⟨[(0, ⟨TimerMode.idle, 0⟩)], 1, 0, 42, true⟩
        ⟨some 0, fun _ => (0, 5), none⟩).frame =
       SetResult_UINT64 ⟨some 0, fun _ => (0, 5), none⟩ (42 % 2 ^ 64) ∧
     (NativeGetCurrent___STATIC__U8 HighResTimerDriver
        ⟨[(0, ⟨TimerMode.idle, 0⟩)], 1, 0, 42, true⟩
        ⟨none, fun _ => (-9, 0), (⟨some 0, fun _ => (0, 5), none⟩ : StackFrame).result⟩).hr = S_OK ∧
     (NativeGetCurrent___STATIC__U8 HighResTimerDriver
        ⟨[(0, ⟨TimerMode.idle, 0⟩)], 1, 0, 42, true⟩
        ⟨none, fun _ => (-9, 0), (⟨some 0, fun _ => (0, 5), none⟩ : StackFrame).result⟩).frame.result =
       some (ResultVal.u64 (42 % 2 ^ 64)) ∧
     (NativeGetCurrent___STATIC__U8 HighResTimerDriver
        { (⟨[(0, ⟨TimerMode.idle, 0⟩)], 1, 0, 42, true⟩ : TimerState) with assoc := [] }
        ⟨some 0, fun _ => (0, 5), none⟩).hr = S_OK ∧
     (NativeGetCurrent___STATIC__U8 HighResTimerDriver
        { (⟨[(0, ⟨TimerMode.idle, 0⟩)], 1, 0, 42, true⟩ : TimerState) with assoc := [] }
        ⟨some 0, fun _ => (0, 5), none⟩).frame =
       SetResult_UINT64 ⟨some 0, fun _ => (0, 5), none⟩ (42 % 2 ^ 64)) :=
  ⟨rfl, spec_C5 ⟨[(0, ⟨TimerMode.idle, 0⟩)], 1, 0, 42, true⟩
     ⟨some 0, fun _ => (0, 5), none⟩ none (fun _ => (-9, 0)) [] rfl⟩

/-- Claim C7: with the spec-modelled driver, a non-null reference with no
association entry makes stop, start-one-shot and start-periodic (with a
well-formed interval argument) return exactly the not-found failure with
the driver state unchanged; the not-found code is a failing HRESULT, so
the call neither crashes nor silently succeeds. -/
theorem spec_C7 (s : TimerState) (stack : StackFrame) (p : Nat)
    (h : stack.mngObj = some p) (hl : lookupRef s.assoc p = none)
    (hm : FAILED (stack.argU64 1).1 = false) :
    NativeStop___VOID HighResTimerDriver s stack =
      ⟨s, CLR_E_NOT_FOUND, stack, true⟩ ∧
    NativeStartOneShot___VOID__U8 HighResTimerDriver s stack =
      ⟨s, CLR_E_NOT_FOUND, stack, true⟩ ∧
    NativeStartPeriodic___VOID__U8 HighResTimerDriver s stack =
      ⟨s, CLR_E_NOT_FOUND, stack, true⟩ ∧
    FAILED CLR_E_NOT_FOUND = true := by
  simp only [FAILED, decide_eq_false_iff_not, not_lt] at hm
  refine ⟨?_, ?_, ?_, by decide⟩ <;>
    simp [NativeStop___VOID, NativeStartOneShot___VOID__U8,
      NativeStartPeriodic___VOID__U8, Interop_Marshal_RetrieveManagedObject,
      Interop_Marshal_UINT64, HighResTimerDriver, HighResTimer.NativeStop,
      HighResTimer.NativeStartOneShot, HighResTimer.NativeStartPeriodic,
      h, hl, hm, FAILED, CLR_E_NOT_FOUND]

/-- Witness for C7: reference 3 is non-null but has no association entry. -/
theorem spec_C7_witness :
    (⟨some 3, fun _ => (0, 5), none⟩ : StackFrame).mngObj = some 3 ∧
    lookupRef (⟨[(0, ⟨TimerMode.idle, 0⟩)], 1, 0, 0, true⟩ : TimerState).assoc 3 = none ∧
    FAILED (((⟨some 3, fun _ => (0, 5), none⟩ : StackFrame).argU64 1).1) = false ∧
    (NativeStop___VOID HighResTimerDriver
        (⟨[(0, ⟨TimerMode.idle, 0⟩)], 1, 0, 0, true⟩ : TimerState)
        ⟨some 3, fun _ => (0, 5), none⟩ =
      ⟨⟨[(0, ⟨TimerMode.idle, 0⟩)], 1, 0, 0, true⟩, CLR_E_NOT_FOUND,
        ⟨some 3, fun _ => (0, 5), none⟩, true⟩ ∧
     NativeStartOneShot___VOID__U8 HighResTimerDriver
        (⟨[(0, ⟨TimerMode.idle, 0⟩)], 1, 0, 0, true⟩ : TimerState)
        ⟨some 3, fun _ => (0, 5), none⟩ =
      ⟨⟨[(0, ⟨TimerMode.idle, 0⟩)], 1, 0, 0, true⟩, CLR_E_NOT_FOUND,
        ⟨some 3, fun _ => (0, 5), none⟩, true⟩ ∧
     NativeStartPeriodic___VOID__U8 HighResTimerDriver
        (⟨[(0, ⟨TimerMode.idle, 0⟩)], 1, 0, 0, true⟩ : TimerState)
        ⟨some 3, fun _ => (0, 5), none⟩ =
      ⟨⟨[(0, ⟨TimerMode.idle, 0⟩)], 1, 0, 0, true⟩, CLR_E_NOT_FOUND,
        ⟨some 3, fun _ => (0, 5), none⟩, true⟩ ∧
     FAILED CLR_E_NOT_FOUND = true) :=
  ⟨rfl, rfl, by decide,
   spec_C7 ⟨[(0, ⟨TimerMode.idle, 0⟩)], 1, 0, 0, true⟩
     ⟨some 3, fun _ => (0, 5), none⟩ 3 rfl rfl (by decide)⟩

/-- A dispose call through the shim on a non-null reference always returns
success and ends in the driver state the spec-modelled dispose computes. -/
theorem dispose_shim_eq (s : TimerState) (stack : StackFrame) (p : Nat)
    (h : stack.mngObj = some p) :
    NativeEspTimerDispose___VOID HighResTimerDriver s stack =
      ⟨(HighResTimer.NativeEspTimerDispose s p S_OK).1, S_OK, stack, true⟩ := by
  cases hl : lookupRef s.assoc p <;>
    simp [NativeEspTimerDispose___VOID, Interop_Marshal_RetrieveManagedObject,
      HighResTimerDriver, HighResTimer.NativeEspTimerDispose, h, hl, FAILED,
      S_OK]

/-- After a spec-modelled dispose the association table holds no entry for
the disposed reference. -/
theorem dispose_lookup_none (s : TimerState) (p : Nat) :
    lookupRef (HighResTimer.NativeEspTimerDispose s p S_OK).1.assoc p = none := by
  cases hl : lookupRef s.assoc p <;>
    simp [HighResTimer.NativeEspTimerDispose, hl, lookupRef_removeRef]

/-- A spec-modelled dispose of a reference with no association entry is the
identity on the driver state and succeeds. -/
theorem dispose_absent_id (s : TimerState) (p : Nat)
    (hl : lookupRef s.assoc p = none) :
    HighResTimer.NativeEspTimerDispose s p S_OK = (s, S_OK) := by
  simp [HighResTimer.NativeEspTimerDispose, hl]

/-- Claim C6: dispose is idempotent with the spec-modelled driver: a first
dispose succeeds and leaves no association entry for the reference; a
second dispose succeeds and performs no state change at all — in
particular no second hardware release — and a subsequent stop on the
reference reports the not-found failure. -/
theorem spec_C6 (s : TimerState) (stack : StackFrame) (p : Nat)
    (h : stack.mngObj = some p) :
    (NativeEspTimerDispose___VOID HighResTimerDriver s stack).hr = S_OK ∧
    lookupRef (NativeEspTimerDispose___VOID HighResTimerDriver s stack).st.assoc p = none ∧
    NativeEspTimerDispose___VOID HighResTimerDriver
        (NativeEspTimerDispose___VOID HighResTimerDriver s stack).st stack =
      ⟨(NativeEspTimerDispose___VOID HighResTimerDriver s stack).st, S_OK, stack, true⟩ ∧
    (NativeEspTimerDispose___VOID HighResTimerDriver
        (NativeEspTimerDispose___VOID HighResTimerDriver s stack).st stack).st.hwReleases =
      (NativeEspTimerDispose___VOID HighResTimerDriver s stack).st.hwReleases ∧
    (NativeStop___VOID HighResTimerDriver
        (NativeEspTimerDispose___VOID HighResTimerDriver s stack).st stack).hr =
      CLR_E_NOT_FOUND := by
  have h1 := dispose_shim_eq s stack p h
  rw [h1]
  have hn : lookupRef (HighResTimer.NativeEspTimerDispose s p S_OK).1.assoc p =
      none := dispose_lookup_none s p
  have h2 := dispose_shim_eq (HighResTimer.NativeEspTimerDispose s p S_OK).1
    stack p h
  rw [dispose_absent_id _ p hn] at h2
  refine ⟨rfl, hn, h2, ?_, ?_⟩
  · rw [h2]
  · simp [NativeStop___VOID, Interop_Marshal_RetrieveManagedObject,
      HighResTimerDriver, HighResTimer.NativeStop, h, hn, FAILED,
      CLR_E_NOT_FOUND]

/-- Witness for C6: reference 0 is associated and armed, disposed twice,
then stopped. -/
theorem spec_C6_witness :
    (⟨some 0, fun _ => (0, 5), none⟩ : StackFrame).mngObj = some 0 ∧
    ((NativeEspTimerDispose___VOID HighResTimerDriver
        (⟨[(0, ⟨TimerMode.armedPeriodic, 9⟩)], 0, 0, 0, true⟩ : TimerState)
        ⟨some 0, fun _ => (0, 5), none⟩).hr = S_OK ∧
     lookupRef (NativeEspTimerDispose___VOID HighResTimerDriver
        (⟨[(0, ⟨TimerMode.armedPeriodic, 9⟩)], 0, 0, 0, true⟩ : TimerState)
        ⟨some 0, fun _ => (0, 5), none⟩).st.assoc 0 = none ∧
     NativeEspTimerDispose___VOID HighResTimerDriver
        (NativeEspTimerDispose___VOID HighResTimerDriver
          (⟨[(0, ⟨TimerMode.armedPeriodic, 9⟩)], 0, 0, 0, true⟩ : TimerState)
          ⟨some 0, fun _ => (0, 5), none⟩).st ⟨some 0, fun _ => (0, 5), none⟩ =
      ⟨(NativeEspTimerDispose___VOID HighResTimerDriver
          (⟨[(0, ⟨TimerMode.armedPeriodic, 9⟩)], 0, 0, 0, true⟩ : TimerState)
          ⟨some 0, fun _ => (0, 5), none⟩).st, S_OK,
        ⟨some 0, fun _ => (0, 5), none⟩, true⟩ ∧
     (NativeEspTimerDispose___VOID HighResTimerDriver
        (NativeEspTimerDispose___VOID HighResTimerDriver
          (⟨[(0, ⟨TimerMode.armedPeriodic, 9⟩)], 0, 0, 0, true⟩ : TimerState)
          ⟨some 0, fun _ => (0, 5), none⟩).st ⟨some 0, fun _ => (0, 5), none⟩).st.hwReleases =
      (NativeEspTimerDispose___VOID HighResTimerDriver
        (⟨[(0, ⟨TimerMode.armedPeriodic, 9⟩)], 0, 0, 0, true⟩ : TimerState)
        ⟨some 0, fun _ => (0, 5), none⟩).st.hwReleases ∧
     (NativeStop___VOID HighResTimerDriver
        (NativeEspTimerDispose___VOID HighResTimerDriver
          (⟨[(0, ⟨TimerMode.armedPeriodic, 9⟩)], 0, 0, 0, true⟩ : TimerState)
          ⟨some 0, fun _ => (0, 5), none⟩).st ⟨some 0, fun _ => (0, 5), none⟩).hr =
      CLR_E_NOT_FOUND) :=
  ⟨rfl, spec_C6 ⟨[(0, ⟨TimerMode.armedPeriodic, 9⟩)], 0, 0, 0, true⟩
     ⟨some 0, fun _ => (0, 5), none⟩ 0 rfl⟩

/-- The success status is not a failure. -/
theorem FAILED_S_OK : FAILED S_OK = false := rfl

/-- Claim C8: every shim initialises `hr` to `S_OK` before the driver call,
so when the invoked driver operation returns without writing `hr` (it hands
back the status it received — `S_OK` where the shim passes `S_OK`, the
marshaller's non-failing status in the start shims) the managed caller
observes a success status from every shim, never an uninitialised one. -/
theorem spec_C8 {σ : Type} (d : Driver σ) (st : σ) (stack : StackFrame)
    (p : Nat) (h : stack.mngObj = some p)
    (hm : FAILED (stack.argU64 1).1 = false)
    (hc : (d.create st p S_OK).2.2 = S_OK)
    (hd : (d.dispose st p S_OK).2 = S_OK)
    (hs : (d.stop st p S_OK).2 = S_OK)
    (h1 : (d.startOneShot st p (stack.argU64 1).2 (stack.argU64 1).1).2 =
      (stack.argU64 1).1)
    (h2 : (d.startPeriodic st p (stack.argU64 1).2 (stack.argU64 1).1).2 =
      (stack.argU64 1).1)
    (hg : (d.getCurrent st S_OK).2.2 = S_OK) :
    (NativeEspTimerCreate___I4 d st stack).hr = S_OK ∧
    (NativeEspTimerDispose___VOID d st stack).hr = S_OK ∧
    (NativeStop___VOID d st stack).hr = S_OK ∧
    (NativeStartOneShot___VOID__U8 d st stack).hr = S_OK ∧
    (NativeStartPeriodic___VOID__U8 d st stack).hr = S_OK ∧
    (NativeGetCurrent___STATIC__U8 d st stack).hr = S_OK := by
  refine ⟨?_, ?_, ?_, ?_, ?_, ?_⟩ <;>
    simp [NativeEspTimerCreate___I4, NativeEspTimerDispose___VOID,
      NativeStop___VOID, NativeStartOneShot___VOID__U8,
      NativeStartPeriodic___VOID__U8, NativeGetCurrent___STATIC__U8,
      Interop_Marshal_RetrieveManagedObject, Interop_Marshal_UINT64,
      h, hm, hc, hd, hs, h1, h2, hg, FAILED_S_OK]

/-- Witness for C8: the inert driver on a frame whose interval slot decodes
successfully. -/
theorem spec_C8_witness :
    (⟨some 2, fun _ => (0, 7), none⟩ : StackFrame).mngObj = some 2 ∧
    FAILED (((⟨some 2, fun _ => (0, 7), none⟩ : StackFrame).argU64 1).1) = false ∧
    (inertDriver.create () 2 S_OK).2.2 = S_OK ∧
    (inertDriver.dispose () 2 S_OK).2 = S_OK ∧
    (inertDriver.stop () 2 S_OK).2 = S_OK ∧
    (inertDriver.startOneShot () 2
        ((⟨some 2, fun _ => (0, 7), none⟩ : StackFrame).argU64 1).2
        ((⟨some 2, fun _ => (0, 7), none⟩ : StackFrame).argU64 1).1).2 =
      ((⟨some 2, fun _ => (0, 7), none⟩ : StackFrame).argU64 1).1 ∧
    (inertDriver.startPeriodic () 2
        ((⟨some 2, fun _ => (0, 7), none⟩ : StackFrame).argU64 1).2
        ((⟨some 2, fun _ => (0, 7), none⟩ : StackFrame).argU64 1).1).2 =
      ((⟨some 2, fun _ => (0, 7), none⟩ : StackFrame).argU64 1).1 ∧
    (inertDriver.getCurrent () S_OK).2.2 = S_OK ∧
    ((NativeEspTimerCreate___I4 inertDriver () ⟨some 2, fun _ => (0, 7), none⟩).hr = S_OK ∧
     (NativeEspTimerDispose___VOID inertDriver () ⟨some 2, fun _ => (0, 7), none⟩).hr = S_OK ∧
     (NativeStop___VOID inertDriver () ⟨some 2, fun _ => (0, 7), none⟩).hr = S_OK ∧
     (NativeStartOneShot___VOID__U8 inertDriver () ⟨some 2, fun _ => (0, 7), none⟩).hr = S_OK ∧
     (NativeStartPeriodic___VOID__U8 inertDriver () ⟨some 2, fun _ => (0, 7), none⟩).hr = S_OK ∧
     (NativeGetCurrent___STATIC__U8 inertDriver () ⟨some 2, fun _ => (0, 7), none⟩).hr = S_OK) :=
  ⟨rfl, by decide, rfl, rfl, rfl, rfl, rfl, rfl,
   spec_C8 inertDriver () ⟨some 2, fun _ => (0, 7), none⟩ 2 rfl (by decide)
     rfl rfl rfl rfl rfl rfl⟩
